import Mathlib

/-!
Verification development for the Real-Time Process Monitoring System.

The Python source is shallowly embedded:
* floats become rationals (`ℚ`), Python ints become `ℤ`;
* the wall clock read by `time.strftime("%H:%M:%S")` becomes an explicit
  `String` argument `now` (the clock reading at the moment of the call);
* `collections.deque(maxlen=c)` becomes a `List` together with the
  bounded-append function `dappend`;
* the psutil library is an external collaborator and is modelled as an
  explicit environment value passed to the embedded functions.
-/

/-- Alert severity levels, the `"WARNING"` / `"CRITICAL"` strings of
`analytics.py`. -/
inductive Level where
  | WARNING
  | CRITICAL
deriving DecidableEq, Repr

/-- An alert dict `{level, message, time}` as built by
`AnalyticsEngine.check_alerts`. -/
structure Alert where
  level : Level
  message : String
  time : String
deriving DecidableEq, Repr

/-- The dict returned by `collector.get_system_stats`: exactly the four keys
`cpu_percent`, `memory_used`, `memory_total`, `memory_percent` of the dict
literal in `collector.py`. -/
structure SystemStats where
  cpu_percent : ℚ
  memory_used : ℤ
  memory_total : ℤ
  memory_percent : ℚ
deriving DecidableEq, Repr

/-- Round a rational to an integer, ties to even (the rounding used by
CPython float formatting). -/
def rndHalfEven (x : ℚ) : ℤ :=
  let f : ℤ := ⌊x⌋
  let r : ℚ := x - (f : ℚ)
  if r < 1/2 then f
  else if 1/2 < r then f + 1
  else if f % 2 = 0 then f else f + 1

/-- Python's `f"{v:.1f}"`: the value rendered with exactly one digit after
the decimal point, correctly rounded (ties to even). -/
def fmt1 (q : ℚ) : String :=
  let n : ℤ := rndHalfEven (q * 10)
  let m : ℕ := n.natAbs
  (if n < 0 then "-" else "") ++ toString (m / 10) ++ "." ++ toString (m % 10)

/-- State of `AnalyticsEngine`: the three deques and their common `maxlen`
capacity fixed in `__init__`. -/
structure AnalyticsEngine where
  cap : ℕ
  time_history : List String
  cpu_history : List ℚ
  memory_history : List ℚ
deriving DecidableEq, Repr

/-- Constructor `AnalyticsEngine.__init__(max_history)`: three empty deques
with `maxlen = max_history`. -/
def mkEngine (max_history : ℕ) : AnalyticsEngine :=
  { cap := max_history, time_history := [], cpu_history := [], memory_history := [] }

/-- Python `deque(maxlen = cap).append x` on a deque currently holding `l`:
the element is appended and, if the capacity would be exceeded, the single
oldest element is discarded from the left. -/
def dappend {α : Type} (cap : ℕ) (l : List α) (x : α) : List α :=
  (l ++ [x]).drop (l.length + 1 - cap)

/-- Method `AnalyticsEngine.update_history(system_stats)`: appends
`time.strftime("%H:%M:%S")` (the clock reading `now` at append time),
`system_stats["cpu_percent"]` and `system_stats["memory_percent"]` to the
three deques. -/
def update_history (e : AnalyticsEngine) (system_stats : SystemStats) (now : String) :
    AnalyticsEngine :=
  { e with
    time_history := dappend e.cap e.time_history now
    cpu_history := dappend e.cap e.cpu_history system_stats.cpu_percent
    memory_history := dappend e.cap e.memory_history system_stats.memory_percent }

/-- The CPU branch of `check_alerts`: `if cpu > 90: CRITICAL elif cpu > 80:
WARNING`, with the f-string messages of `analytics.py`. -/
def cpu_alerts (system_stats : SystemStats) (now : String) : List Alert :=
  let cpu := system_stats.cpu_percent
  if 90 < cpu then
    [{ level := .CRITICAL, message := "CPU usage is " ++ fmt1 cpu ++ "%", time := now }]
  else if 80 < cpu then
    [{ level := .WARNING, message := "CPU usage is high: " ++ fmt1 cpu ++ "%", time := now }]
  else []

/-- The memory branch of `check_alerts`: `if mem > 90: CRITICAL elif mem > 80:
WARNING`, with the f-string messages of `analytics.py`. -/
def mem_alerts (system_stats : SystemStats) (now : String) : List Alert :=
  let mem := system_stats.memory_percent
  if 90 < mem then
    [{ level := .CRITICAL, message := "Memory usage is " ++ fmt1 mem ++ "%", time := now }]
  else if 80 < mem then
    [{ level := .WARNING, message := "Memory usage is high: " ++ fmt1 mem ++ "%", time := now }]
  else []

/-- Method `AnalyticsEngine.check_alerts(system_stats)`: the CPU alerts are appended
first, then the memory alerts; `now` is the single
`time.strftime("%H:%M:%S")` reading taken at the top of the call. -/
def check_alerts (system_stats : SystemStats) (now : String) : List Alert :=
  cpu_alerts system_stats now ++ mem_alerts system_stats now

/-- The `check_alerts` *method*: the Python body reads only its argument and
assigns to no attribute of `self`, so as a state transformer it returns the
engine state unchanged alongside the alert list. -/
def check_alerts_method (e : AnalyticsEngine) (system_stats : SystemStats) (now : String) :
    List Alert × AnalyticsEngine :=
  (check_alerts system_stats now, e)

/-- Run a sequence of `update_history` calls (each a sample paired with the
clock reading at that append) against an engine. -/
def run_appends (e : AnalyticsEngine) (inputs : List (SystemStats × String)) :
    AnalyticsEngine :=
  inputs.foldl (fun acc p => update_history acc p.1 p.2) e

/-- Result of `psutil.virtual_memory()`: the fields read by `collector.py`. -/
structure VirtualMemory where
  used : ℤ
  total : ℤ
  percent : ℚ
deriving DecidableEq, Repr

/-- The psutil readings consumed by one `get_system_stats()` call:
`psutil.cpu_percent(interval=None)` and `psutil.virtual_memory()`. -/
structure SysReading where
  cpu_percent : ℚ
  virtual_memory : VirtualMemory
deriving DecidableEq, Repr

/-- Function `collector.get_system_stats()`: packs the psutil readings into a
dict with exactly the four keys `cpu_percent`, `memory_used`, `memory_total`,
`memory_percent` (the dict literal has no timestamp key). -/
def get_system_stats (env : SysReading) : SystemStats :=
  { cpu_percent := env.cpu_percent
    memory_used := env.virtual_memory.used
    memory_total := env.virtual_memory.total
    memory_percent := env.virtual_memory.percent }

/-- One process entry as assembled by `get_process_list`. -/
structure PInfo where
  pid : ℤ
  name : String
  status : String
  cpu_percent : ℚ
  memory_mb : ℚ
deriving DecidableEq, Repr

/-- The `memory_info` value of a process: only `rss` is read. -/
structure MemInfo where
  rss : ℤ
deriving DecidableEq, Repr

/-- The `proc.info` dict of one enumerated process; each key may be absent
(the source reads every key through `.get` with a default). -/
structure RawProc where
  pid : Option ℤ
  name : Option String
  status : Option String
  cpu_percent : Option ℚ
  memory_info : Option MemInfo
deriving DecidableEq, Repr

/-- One iteration of `psutil.process_iter` as seen by the `try` block of
`get_process_list`: either the `proc.info` dict, or one of the three
exceptions caught by the `except` clause. -/
inductive ProcEntry where
  | ok (info : RawProc)
  | noSuchProcess
  | accessDenied
  | zombieProcess
deriving DecidableEq, Repr

/-- Body of the `try` block of `get_process_list`: builds the process dict
from `proc.info` (with the source's `.get` defaults and the
`rss / (1024 * 1024)` conversion), and skips the entry when one of the three
caught exceptions occurred (`continue`). -/
def procRecord : ProcEntry → Option PInfo
  | .ok info =>
    some { pid := info.pid.getD 0
           name := info.name.getD "N/A"
           status := info.status.getD "N/A"
           cpu_percent := info.cpu_percent.getD 0
           memory_mb :=
             match info.memory_info with
             | some m => (m.rss : ℚ) / (1024 * 1024)
             | none => 0 }
  | _ => none

/-- Stable insertion used to model Python's stable sort: `x` is placed before
the first element whose key does not exceed its own, so it lands after every
earlier element with a strictly larger key and before every element with an
equal or smaller key. -/
def insertDesc (x : PInfo) : List PInfo → List PInfo
  | [] => [x]
  | y :: ys => if y.cpu_percent ≤ x.cpu_percent then x :: y :: ys else y :: insertDesc x ys

/-- Python's `processes.sort(key=lambda p: p["cpu_percent"], reverse=True)`:
a stable sort, descending by `cpu_percent` (CPython's sort is stable, and
`reverse=True` does not reorder equal elements), realised here as a stable
insertion sort. -/
def sortByCpuDesc (l : List PInfo) : List PInfo := l.foldr insertDesc []

/-- Function `collector.get_process_list()`: per-entry collection with the
three caught exceptions skipped, then the stable descending sort by
`cpu_percent`. -/
def get_process_list (entries : List ProcEntry) : List PInfo :=
  sortByCpuDesc (entries.filterMap procRecord)

/-- Exceptions relevant to `collector.kill_process`: the three caught by its
`except` clause, plus the `ValueError` that `psutil.Process(pid)` raises for
a negative pid (documented psutil behaviour, not caught by the source). -/
inductive PyExn where
  | NoSuchProcess
  | AccessDenied
  | TimeoutExpired
  | ValueError
deriving DecidableEq, Repr

/-- Environment of one `kill_process` call: the outcome of the psutil
interaction `psutil.Process(pid); p.terminate(); p.wait(timeout=3)` for each
pid — `Except.ok ()` when the process is confirmed gone within the 3-second
wait, `Except.error e` when one of the calls raises `e`. -/
structure Psutil where
  term_wait : ℤ → Except PyExn Unit

/-- Function `collector.kill_process(pid)`: the `try` block runs the psutil
interaction; `NoSuchProcess`, `AccessDenied` and `TimeoutExpired` are caught
and turned into `False`; success returns `True`; any other exception
propagates to the caller. -/
def kill_process (ps : Psutil) (pid : ℤ) : Except PyExn Bool :=
  match ps.term_wait pid with
  | .ok _ => .ok true
  | .error .NoSuchProcess => .ok false
  | .error .AccessDenied => .ok false
  | .error .TimeoutExpired => .ok false
  | .error e => .error e

/-- Environment of one `refresh_dashboard` tick: the outcome of
`collector.get_system_stats()` and of the process enumeration behind
`collector.get_process_list()` on this tick. -/
structure Collector where
  system_stats : Except PyExn SysReading
  process_iter : Except PyExn (List ProcEntry)

/-- Data core of `MainWindow.refresh_dashboard`: calls `get_system_stats()`
first — if it raises, the exception propagates and nothing below it runs —
then `get_process_list()`, then `update_history`, then `check_alerts`.
Widget updates are presentation-only and omitted. The second component is
the engine state after the tick. -/
def refresh_dashboard (c : Collector) (e : AnalyticsEngine) (now : String) :
    Except PyExn (List PInfo × List Alert) × AnalyticsEngine :=
  match c.system_stats with
  | .error err => (.error err, e)
  | .ok reading =>
    match c.process_iter with
    | .error err => (.error err, e)
    | .ok entries =>
      let stats := get_system_stats reading
      let procs := get_process_list entries
      let e1 := update_history e stats now
      (.ok (procs, check_alerts stats now), e1)

/-- A concrete sample with `cpu_percent = 95.2` (the spec's own scenario
value) and an unremarkable memory reading. -/
def s95 : SystemStats :=
  { cpu_percent := 952/10, memory_used := 0, memory_total := 1, memory_percent := 40 }

/-- A concrete sample whose CPU and memory values both exceed 90. -/
def sBoth : SystemStats :=
  { cpu_percent := 95, memory_used := 0, memory_total := 1, memory_percent := 92 }

/-- Four appends with cpu values 10, 20, 30, 40 in order (the spec's
capacity-3 scenario). -/
def inputs4 : List (SystemStats × String) :=
  [({ cpu_percent := 10, memory_used := 0, memory_total := 1, memory_percent := 11 }, "t1"),
   ({ cpu_percent := 20, memory_used := 0, memory_total := 1, memory_percent := 21 }, "t2"),
   ({ cpu_percent := 30, memory_used := 0, memory_total := 1, memory_percent := 31 }, "t3"),
   ({ cpu_percent := 40, memory_used := 0, memory_total := 1, memory_percent := 41 }, "t4")]

/-- A fully populated `proc.info` dict with the given pid, name and cpu. -/
def rawWith (pid : ℤ) (pname : String) (cpu : ℚ) : RawProc :=
  { pid := some pid, name := some pname, status := some "running",
    cpu_percent := some cpu, memory_info := none }

/-- The spec's enumeration scenario: A(cpu=50), B(cpu=80), C(cpu=80) in
that order. -/
def entriesABC : List ProcEntry :=
  [.ok (rawWith 1 "A" 50), .ok (rawWith 2 "B" 80), .ok (rawWith 3 "C" 80)]

/-- Modelled from psutil's documented behaviour: `psutil.Process(pid)` raises
`ValueError` when `pid` is negative (before any process lookup), and here no
pid is live, so a non-negative pid raises `NoSuchProcess`. -/
def psutilModel : Psutil :=
  { term_wait := fun pid => if pid < 0 then .error .ValueError else .error .NoSuchProcess }

/-- A tick environment in which `get_system_stats()` raises. -/
def cFail : Collector := { system_stats := .error .AccessDenied, process_iter := .ok [] }

/-- A concrete psutil reading for `get_system_stats`. -/
def readingA : SysReading :=
  { cpu_percent := 25, virtual_memory := { used := 100, total := 200, percent := 50 } }

/- Helper lemmas about the bounded append. -/

lemma length_dappend {α : Type} (cap : ℕ) (l : List α) (x : α) :
    (dappend cap l x).length = min (l.length + 1) cap := by
  simp [dappend]
  omega

lemma foldl_dappend {α : Type} (cap : ℕ) (xs : List α) : ∀ l : List α, l.length ≤ cap →
    xs.foldl (dappend cap) l = (l ++ xs).drop (l.length + xs.length - cap) := by
  induction xs with
  | nil =>
    intro l hl
    have h0 : l.length - cap = 0 := by omega
    simp [h0]
  | cons x xs ih =>
    intro l hl
    rw [List.foldl_cons, ih (dappend cap l x) (by rw [length_dappend]; omega)]
    rw [dappend, ← List.drop_append_of_le_length (by simp), List.drop_drop]
    simp only [List.length_drop, List.length_append, List.length_singleton,
      List.length_cons, List.length_nil, List.append_assoc, List.singleton_append]
    congr 1
    omega

lemma run_appends_proj (e : AnalyticsEngine) (inputs : List (SystemStats × String)) :
    (run_appends e inputs).cap = e.cap
    ∧ (run_appends e inputs).time_history
        = (inputs.map Prod.snd).foldl (dappend e.cap) e.time_history
    ∧ (run_appends e inputs).cpu_history
        = (inputs.map (fun p => p.1.cpu_percent)).foldl (dappend e.cap) e.cpu_history
    ∧ (run_appends e inputs).memory_history
        = (inputs.map (fun p => p.1.memory_percent)).foldl (dappend e.cap) e.memory_history := by
  induction inputs generalizing e with
  | nil => exact ⟨rfl, rfl, rfl, rfl⟩
  | cons p ps ih =>
    have h := ih (update_history e p.1 p.2)
    simpa [run_appends, update_history] using h

/- Helper lemmas about the stable descending sort. -/

lemma mem_insertDesc (x z : PInfo) (l : List PInfo) :
    z ∈ insertDesc x l ↔ z = x ∨ z ∈ l := by
  induction l with
  | nil => simp [insertDesc]
  | cons y ys ih =>
    rw [insertDesc]
    split_ifs with h
    · simp
    · simp only [List.mem_cons, ih]
      tauto

lemma pairwise_insertDesc (x : PInfo) (l : List PInfo)
    (hl : l.Pairwise (fun a b => b.cpu_percent ≤ a.cpu_percent)) :
    (insertDesc x l).Pairwise (fun a b => b.cpu_percent ≤ a.cpu_percent) := by
  induction l with
  | nil => simp [insertDesc]
  | cons y ys ih =>
    rw [List.pairwise_cons] at hl
    rw [insertDesc]
    split_ifs with h
    · rw [List.pairwise_cons]
      refine ⟨?_, List.pairwise_cons.mpr hl⟩
      intro z hz
      rcases List.mem_cons.mp hz with hz | hz
      · subst hz; exact h
      · exact le_trans (hl.1 z hz) h
    · rw [List.pairwise_cons]
      refine ⟨?_, ih hl.2⟩
      intro z hz
      rcases (mem_insertDesc x z ys).mp hz with hz | hz
      · subst hz; exact le_of_not_le h
      · exact hl.1 z hz

lemma sorted_sortByCpuDesc (l : List PInfo) :
    (sortByCpuDesc l).Pairwise (fun a b => b.cpu_percent ≤ a.cpu_percent) := by
  induction l with
  | nil => simp [sortByCpuDesc]
  | cons x xs ih =>
    rw [sortByCpuDesc, List.foldr_cons]
    exact pairwise_insertDesc x _ ih

lemma filter_insertDesc (k : ℚ) (x : PInfo) (l : List PInfo) :
    (insertDesc x l).filter (fun p => decide (p.cpu_percent = k))
      = if x.cpu_percent = k then
          x :: l.filter (fun p => decide (p.cpu_percent = k))
        else l.filter (fun p => decide (p.cpu_percent = k)) := by
  induction l with
  | nil =>
    rw [insertDesc]
    by_cases hx : x.cpu_percent = k <;> simp [List.filter, hx]
  | cons y ys ih =>
    rw [insertDesc]
    by_cases h : y.cpu_percent ≤ x.cpu_percent
    · rw [if_pos h]
      by_cases hx : x.cpu_percent = k <;> simp [List.filter_cons, hx]
    · rw [if_neg h, List.filter_cons, List.filter_cons, ih]
      by_cases hx : x.cpu_percent = k
      · have hyk : ¬ y.cpu_percent = k := fun h2 => h (le_of_eq (h2.trans hx.symm))
        simp [hx, hyk]
      · simp [hx]

lemma filter_sortByCpuDesc (k : ℚ) (l : List PInfo) :
    (sortByCpuDesc l).filter (fun p => decide (p.cpu_percent = k))
      = l.filter (fun p => decide (p.cpu_percent = k)) := by
  induction l with
  | nil => rfl
  | cons x xs ih =>
    rw [sortByCpuDesc, List.foldr_cons]
    rw [show List.foldr insertDesc [] xs = sortByCpuDesc xs from rfl] at *
    rw [filter_insertDesc, List.filter_cons]
    split_ifs with h1 h2 <;> simp_all

/-- Claim C1: per metric evaluated independently, `check_alerts` emits
exactly one CRITICAL alert when the value is above 90, exactly one WARNING
when it is above 80 and at most 90, and no alert when it is at most 80
(so exactly 90 gives WARNING and exactly 80 gives nothing); at most one
alert per metric per call, and the output is the CPU alerts followed by the
memory alerts, so both metrics can each contribute one alert. -/
theorem check_alerts_thresholds (s : SystemStats) (now : String) :
    check_alerts s now = cpu_alerts s now ++ mem_alerts s now
    ∧ (90 < s.cpu_percent → (cpu_alerts s now).map Alert.level = [.CRITICAL])
    ∧ (80 < s.cpu_percent ∧ s.cpu_percent ≤ 90 →
        (cpu_alerts s now).map Alert.level = [.WARNING])
    ∧ (s.cpu_percent ≤ 80 → cpu_alerts s now = [])
    ∧ (90 < s.memory_percent → (mem_alerts s now).map Alert.level = [.CRITICAL])
    ∧ (80 < s.memory_percent ∧ s.memory_percent ≤ 90 →
        (mem_alerts s now).map Alert.level = [.WARNING])
    ∧ (s.memory_percent ≤ 80 → mem_alerts s now = [])
    ∧ (cpu_alerts s now).length ≤ 1 ∧ (mem_alerts s now).length ≤ 1 := by
  refine ⟨rfl, ?_, ?_, ?_, ?_, ?_, ?_, ?_, ?_⟩ <;>
    simp only [cpu_alerts, mem_alerts]
  · intro h; rw [if_pos h]; rfl
  · rintro ⟨h1, h2⟩; rw [if_neg (by linarith), if_pos h1]; rfl
  · intro h; rw [if_neg (by linarith), if_neg (by linarith)]
  · intro h; rw [if_pos h]; rfl
  · rintro ⟨h1, h2⟩; rw [if_neg (by linarith), if_pos h1]; rfl
  · intro h; rw [if_neg (by linarith), if_neg (by linarith)]
  · split_ifs <;> simp
  · split_ifs <;> simp

/-- Witness for C1: on a sample with cpu 95 and memory 92 each branch fires
once, CRITICAL for both, and the whole call emits two alerts. -/
theorem check_alerts_thresholds_w :
    (80 < (90:ℚ) ∧ (90:ℚ) ≤ 90)
    ∧ (cpu_alerts sBoth "10:00:00").map Alert.level = [.CRITICAL]
    ∧ (mem_alerts sBoth "10:00:00").map Alert.level = [.CRITICAL]
    ∧ (check_alerts sBoth "10:00:00").length = 2 := by
  refine ⟨by norm_num, ?_, ?_, ?_⟩
  · exact (check_alerts_thresholds sBoth "10:00:00").2.1 (by norm_num [sBoth])
  · exact (check_alerts_thresholds sBoth "10:00:00").2.2.2.2.1 (by norm_num [sBoth])
  · rw [(check_alerts_thresholds sBoth "10:00:00").1]
    norm_num [cpu_alerts, mem_alerts, sBoth]

/-- Claim C2: after more appends than the capacity, each of the three
history sequences holds exactly the last `C` appended values, in arrival
order (FIFO eviction of the oldest on each overflowing append). -/
theorem history_eviction (C : ℕ) (inputs : List (SystemStats × String))
    (h : C < inputs.length) :
    (run_appends (mkEngine C) inputs).time_history
      = (inputs.map Prod.snd).drop (inputs.length - C)
    ∧ (run_appends (mkEngine C) inputs).cpu_history
      = (inputs.map (fun p => p.1.cpu_percent)).drop (inputs.length - C)
    ∧ (run_appends (mkEngine C) inputs).memory_history
      = (inputs.map (fun p => p.1.memory_percent)).drop (inputs.length - C)
    ∧ (run_appends (mkEngine C) inputs).time_history.length = C
    ∧ (run_appends (mkEngine C) inputs).cpu_history.length = C
    ∧ (run_appends (mkEngine C) inputs).memory_history.length = C := by
  obtain ⟨hcap, ht, hc, hm⟩ := run_appends_proj (mkEngine C) inputs
  have key : ∀ xs : List ℚ, xs.length = inputs.length →
      xs.foldl (dappend C) [] = xs.drop (xs.length - C)
        ∧ (xs.foldl (dappend C) []).length = C := by
    intro xs hxs
    have h0 := foldl_dappend C xs [] (by simp)
    simp only [List.nil_append, List.length_nil, Nat.zero_add] at h0
    refine ⟨h0, ?_⟩
    rw [h0, List.length_drop]
    omega
  have keyS : ∀ xs : List String, xs.length = inputs.length →
      xs.foldl (dappend C) [] = xs.drop (xs.length - C)
        ∧ (xs.foldl (dappend C) []).length = C := by
    intro xs hxs
    have h0 := foldl_dappend C xs [] (by simp)
    simp only [List.nil_append, List.length_nil, Nat.zero_add] at h0
    refine ⟨h0, ?_⟩
    rw [h0, List.length_drop]
    omega
  have et := keyS (inputs.map Prod.snd) (by simp)
  have ec := key (inputs.map (fun p => p.1.cpu_percent)) (by simp)
  have em := key (inputs.map (fun p => p.1.memory_percent)) (by simp)
  simp only [List.length_map] at et ec em
  exact ⟨ht.trans et.1, hc.trans ec.1, hm.trans em.1,
    ht ▸ et.2, hc ▸ ec.2, hm ▸ em.2⟩

/-- Witness for C2: capacity 3, cpu values 10, 20, 30, 40 appended in order;
the retained cpu sequence is 20, 30, 40 and the retained times are the
last three. -/
theorem history_eviction_w :
    3 < inputs4.length
    ∧ (run_appends (mkEngine 3) inputs4).cpu_history = [20, 30, 40]
    ∧ (run_appends (mkEngine 3) inputs4).time_history = ["t2", "t3", "t4"] := by
  refine ⟨by norm_num [inputs4], ?_, ?_⟩
  · rw [(history_eviction 3 inputs4 (by norm_num [inputs4])).2.1]
    norm_num [inputs4]
  · rw [(history_eviction 3 inputs4 (by norm_num [inputs4])).1]
    norm_num [inputs4]

/-- Claim C3, counterexample: the same sample checked at two different clock
readings yields different alert sequences (the `time` field is regenerated
from the wall clock inside every call), so two calls with the same sample
are not guaranteed identical in the time field. -/
theorem check_alerts_clock_dependent :
    check_alerts s95 "10:00:00" ≠ check_alerts s95 "10:00:01" := by
  norm_num [check_alerts, cpu_alerts, mem_alerts, s95]
  decide

/-- Claim C3, amended: `check_alerts` is a pure function of the sample and
the clock reading: the levels and messages of the emitted alerts depend only
on the sample, and two calls with the same sample and the same clock reading
return identical alert sequences. -/
theorem check_alerts_pure (s : SystemStats) (now now₂ : String) :
    (check_alerts s now).map (fun a => (a.level, a.message))
      = (check_alerts s now₂).map (fun a => (a.level, a.message))
    ∧ (now = now₂ → check_alerts s now = check_alerts s now₂) := by
  constructor
  · simp only [check_alerts, cpu_alerts, mem_alerts]
    split_ifs <;> simp
  · intro h; rw [h]

/-- Witness for C3 (amended): concrete instance of the level/message purity. -/
theorem check_alerts_pure_w :
    (check_alerts s95 "10:00:00").map (fun a => (a.level, a.message))
      = (check_alerts s95 "10:00:01").map (fun a => (a.level, a.message)) :=
  (check_alerts_pure s95 "10:00:00" "10:00:01").1

/-- Claim C4, counterexample: with the same triggering sample the alert
`time` field varies with the clock at the moment `check_alerts` runs, and
the CRITICAL CPU message is exactly `CPU usage is 95.2%`, which contains no
colon and hence no `%H:%M:%S` timestamp: the message embeds the value but
not the sample's timestamp, and the `time` field is not a sample attribute. -/
theorem alert_time_not_sample_bound :
    (check_alerts s95 "10:00:00").map Alert.time
      ≠ (check_alerts s95 "10:00:01").map Alert.time
    ∧ (check_alerts s95 "10:00:00").map Alert.message = ["CPU usage is 95.2%"]
    ∧ "CPU usage is 95.2%".toList.contains ':' = false := by
  refine ⟨?_, ?_, by decide⟩ <;>
    norm_num [check_alerts, cpu_alerts, mem_alerts, s95, fmt1, rndHalfEven] <;> decide

/-- Claim C4, amended (new statement): every alert's time field equals the
clock reading taken at the top of the call; each alert's message is the exact
string of the branch that fired, embedding the offending metric's value to
one decimal place; messages never vary with the clock. -/
theorem alert_time_is_call_clock (s : SystemStats) (now : String) :
    (∀ a ∈ check_alerts s now, a.time = now
      ∧ ((90 < s.cpu_percent
            ∧ a.message = "CPU usage is " ++ fmt1 s.cpu_percent ++ "%")
        ∨ (80 < s.cpu_percent ∧ s.cpu_percent ≤ 90
            ∧ a.message = "CPU usage is high: " ++ fmt1 s.cpu_percent ++ "%")
        ∨ (90 < s.memory_percent
            ∧ a.message = "Memory usage is " ++ fmt1 s.memory_percent ++ "%")
        ∨ (80 < s.memory_percent ∧ s.memory_percent ≤ 90
            ∧ a.message = "Memory usage is high: " ++ fmt1 s.memory_percent ++ "%")))
    ∧ (∀ a ∈ cpu_alerts s now,
        List.IsInfix (fmt1 s.cpu_percent).toList a.message.toList)
    ∧ (∀ a ∈ mem_alerts s now,
        List.IsInfix (fmt1 s.memory_percent).toList a.message.toList)
    ∧ (∀ now₂ : String, (check_alerts s now).map Alert.message
        = (check_alerts s now₂).map Alert.message) := by
  refine ⟨?_, ?_, ?_, ?_⟩
  · intro a ha
    rw [check_alerts, List.mem_append] at ha
    rcases ha with ha | ha <;>
      [ (rw [cpu_alerts] at ha); (rw [mem_alerts] at ha) ] <;>
      split_ifs at ha with h1 h2 <;>
      simp only [List.mem_singleton, List.not_mem_nil] at ha <;>
      subst ha <;>
      refine ⟨rfl, ?_⟩
    · exact Or.inl ⟨h1, rfl⟩
    · exact Or.inr (Or.inl ⟨h2, le_of_not_lt h1, rfl⟩)
    · exact Or.inr (Or.inr (Or.inl ⟨h1, rfl⟩))
    · exact Or.inr (Or.inr (Or.inr ⟨h2, le_of_not_lt h1, rfl⟩))
  · intro a ha
    rw [cpu_alerts] at ha
    split_ifs at ha with h1 h2 <;>
      simp only [List.mem_singleton, List.not_mem_nil] at ha <;> subst ha
    · exact ⟨"CPU usage is ".toList, "%".toList, by
        simp only [String.toList, String.data_append]⟩
    · exact ⟨"CPU usage is high: ".toList, "%".toList, by
        simp only [String.toList, String.data_append]⟩
  · intro a ha
    rw [mem_alerts] at ha
    split_ifs at ha with h1 h2 <;>
      simp only [List.mem_singleton, List.not_mem_nil] at ha <;> subst ha
    · exact ⟨"Memory usage is ".toList, "%".toList, by
        simp only [String.toList, String.data_append]⟩
    · exact ⟨"Memory usage is high: ".toList, "%".toList, by
        simp only [String.toList, String.data_append]⟩
  · intro now₂
    simp only [check_alerts, cpu_alerts, mem_alerts]
    split_ifs <;> simp

/-- Witness for C4 (amended): the concrete CRITICAL alert for `s95` carries
the call clock, and its message is the exact CPU string embedding `95.2`. -/
theorem alert_time_is_call_clock_w :
    (⟨.CRITICAL, "CPU usage is 95.2%", "10:00:00"⟩ : Alert) ∈ check_alerts s95 "10:00:00"
    ∧ (⟨.CRITICAL, "CPU usage is 95.2%", "10:00:00"⟩ : Alert).time = "10:00:00"
    ∧ 90 < s95.cpu_percent
    ∧ "CPU usage is 95.2%" = "CPU usage is " ++ fmt1 s95.cpu_percent ++ "%" := by
  have hmem : (⟨.CRITICAL, "CPU usage is 95.2%", "10:00:00"⟩ : Alert)
      ∈ check_alerts s95 "10:00:00" := by
    norm_num [check_alerts, cpu_alerts, mem_alerts, s95, fmt1, rndHalfEven]
    rfl
  have h := (alert_time_is_call_clock s95 "10:00:00").1 _ hmem
  rcases h.2 with ⟨h1, h2⟩ | ⟨h1, h2, h3⟩ | ⟨h1, h2⟩ | ⟨h1, h2, h3⟩
  · exact ⟨hmem, h.1, h1, h2⟩
  · exact absurd h2 (by norm_num [s95])
  · exact absurd h1 (by norm_num [s95])
  · exact absurd h1 (by norm_num [s95])

/-- Claim C5: for every capacity and every sequence of appends (the empty
sequence covers the initial state), the three history sequences have equal
length, and that length never exceeds the capacity fixed at construction. -/
theorem history_lengths_invariant (C : ℕ) (inputs : List (SystemStats × String)) :
    (run_appends (mkEngine C) inputs).time_history.length
        = (run_appends (mkEngine C) inputs).cpu_history.length
    ∧ (run_appends (mkEngine C) inputs).cpu_history.length
        = (run_appends (mkEngine C) inputs).memory_history.length
    ∧ (run_appends (mkEngine C) inputs).time_history.length ≤ C := by
  obtain ⟨hcap, ht, hc, hm⟩ := run_appends_proj (mkEngine C) inputs
  have key : ∀ xs : List ℚ, (List.foldl (dappend C) [] xs).length = min xs.length C := by
    intro xs
    have h0 := foldl_dappend C xs [] (by simp)
    simp only [List.nil_append, List.length_nil, Nat.zero_add] at h0
    rw [h0, List.length_drop]
    omega
  have keyS : ∀ xs : List String, (List.foldl (dappend C) [] xs).length = min xs.length C := by
    intro xs
    have h0 := foldl_dappend C xs [] (by simp)
    simp only [List.nil_append, List.length_nil, Nat.zero_add] at h0
    rw [h0, List.length_drop]
    omega
  have t2 : (run_appends (mkEngine C) inputs).time_history.length = min inputs.length C := by
    rw [ht]
    have := keyS (inputs.map Prod.snd)
    simpa using this
  have c2 : (run_appends (mkEngine C) inputs).cpu_history.length = min inputs.length C := by
    rw [hc]
    have := key (inputs.map (fun p => p.1.cpu_percent))
    simpa using this
  have m2 : (run_appends (mkEngine C) inputs).memory_history.length = min inputs.length C := by
    rw [hm]
    have := key (inputs.map (fun p => p.1.memory_percent))
    simpa using this
  refine ⟨t2.trans c2.symm, c2.trans m2.symm, ?_⟩
  rw [t2]
  exact Nat.min_le_right _ _

/-- Claim C6: `get_process_list` returns the surviving entries sorted by
`cpu_percent` in descending order, and the sort is stable: for every key the
equal-key entries keep their enumeration order; on the scenario
A(cpu=50), B(cpu=80), C(cpu=80) the output is B, C, A. -/
theorem get_process_list_sorted_stable (entries : List ProcEntry) :
    (get_process_list entries).Pairwise (fun a b => b.cpu_percent ≤ a.cpu_percent)
    ∧ (∀ k : ℚ, (get_process_list entries).filter (fun p => decide (p.cpu_percent = k))
        = (entries.filterMap procRecord).filter (fun p => decide (p.cpu_percent = k)))
    ∧ (get_process_list entriesABC).map PInfo.name = ["B", "C", "A"] := by
  refine ⟨sorted_sortByCpuDesc _, fun k => filter_sortByCpuDesc k _, ?_⟩
  simp only [get_process_list, entriesABC, rawWith, List.filterMap_cons, List.filterMap_nil,
    procRecord, Option.getD_some, sortByCpuDesc, List.foldr_cons, List.foldr_nil]
  norm_num [insertDesc]

/-- Claim C7, counterexample: in a psutil environment faithful to psutil's
documented handling of negative pids, `kill_process(-1)` propagates a
`ValueError` instead of returning `False`: the `except` clause catches only
`NoSuchProcess`, `AccessDenied` and `TimeoutExpired`. -/
theorem kill_process_neg_one_raises :
    kill_process psutilModel (-1) = .error .ValueError
    ∧ kill_process psutilModel (-1) ≠ .ok false := by
  have h0 : kill_process psutilModel (-1) = .error .ValueError := rfl
  exact ⟨h0, fun h => Except.noConfusion (h0.symm.trans h)⟩

/-- Claim C7, amended: `kill_process` returns `True` exactly when the
terminate-and-wait interaction confirms the process gone within the wait;
it returns `False` when psutil raises `NoSuchProcess` (nonexistent or
already-reaped pid), `AccessDenied`, or `TimeoutExpired`; any other
exception — such as the `ValueError` psutil raises for a negative pid —
propagates to the caller. -/
theorem kill_process_outcomes (ps : Psutil) (pid : ℤ) :
    (ps.term_wait pid = .ok () → kill_process ps pid = .ok true)
    ∧ (ps.term_wait pid = .error .NoSuchProcess → kill_process ps pid = .ok false)
    ∧ (ps.term_wait pid = .error .AccessDenied → kill_process ps pid = .ok false)
    ∧ (ps.term_wait pid = .error .TimeoutExpired → kill_process ps pid = .ok false)
    ∧ (ps.term_wait pid = .error .ValueError → kill_process ps pid = .error .ValueError) := by
  refine ⟨?_, ?_, ?_, ?_, ?_⟩ <;> intro h <;> simp [kill_process, h]

/-- Witness for C7 (amended): a nonexistent non-negative pid returns `False`. -/
theorem kill_process_outcomes_w :
    psutilModel.term_wait 5 = .error .NoSuchProcess
    ∧ kill_process psutilModel 5 = .ok false :=
  ⟨rfl, (kill_process_outcomes psutilModel 5).2.1 rfl⟩

/-- Claim C8: when `get_system_stats()` fails during a tick, the exception
propagates out of `refresh_dashboard` and the engine's three history
sequences are exactly as before the tick (`update_history` never runs). -/
theorem refresh_propagates (c : Collector) (e : AnalyticsEngine) (now : String)
    (err : PyExn) (h : c.system_stats = .error err) :
    refresh_dashboard c e now = (.error err, e) := by
  simp [refresh_dashboard, h]

/-- Witness for C8: a concrete failing tick leaves a fresh engine untouched. -/
theorem refresh_propagates_w :
    cFail.system_stats = .error .AccessDenied
    ∧ refresh_dashboard cFail (mkEngine 60) "10:00:00" = (.error .AccessDenied, mkEngine 60) :=
  ⟨rfl, refresh_propagates cFail (mkEngine 60) "10:00:00" .AccessDenied rfl⟩

/-- Claim C9, counterexample: appending the same sample at two different
append-time clock readings records different time entries — the recorded
time is generated by `update_history` at append time, not carried by the
sample (which has no timestamp field). -/
theorem update_history_clock_not_sample :
    (update_history (mkEngine 60) (get_system_stats readingA) "11:11:11").time_history
      ≠ (update_history (mkEngine 60) (get_system_stats readingA) "22:22:22").time_history := by
  simp [update_history, get_system_stats, readingA, mkEngine, dappend]

/-- Claim C9, amended: `get_system_stats` returns a record with exactly the
four fields `cpu_percent`, `memory_used`, `memory_total`, `memory_percent`
taken from the psutil readings (no timestamp field), and `update_history`
appends the clock string generated at append time together with the sample's
cpu and memory percentages. -/
theorem get_system_stats_fields (env : SysReading) (e : AnalyticsEngine) (now : String) :
    (get_system_stats env).cpu_percent = env.cpu_percent
    ∧ (get_system_stats env).memory_used = env.virtual_memory.used
    ∧ (get_system_stats env).memory_total = env.virtual_memory.total
    ∧ (get_system_stats env).memory_percent = env.virtual_memory.percent
    ∧ (update_history e (get_system_stats env) now).time_history
        = dappend e.cap e.time_history now
    ∧ (update_history e (get_system_stats env) now).cpu_history
        = dappend e.cap e.cpu_history env.cpu_percent
    ∧ (update_history e (get_system_stats env) now).memory_history
        = dappend e.cap e.memory_history env.virtual_memory.percent :=
  ⟨rfl, rfl, rfl, rfl, rfl, rfl, rfl⟩

/-- Claim C10: `check_alerts` leaves the engine's state unchanged — the
Python method body assigns to no attribute of `self`, so as a state
transformer it returns the state it was given — and its result is exactly
the stateless alert computation on the sample. -/
theorem check_alerts_frame (e : AnalyticsEngine) (s : SystemStats) (now : String) :
    (check_alerts_method e s now).2 = e
    ∧ (check_alerts_method e s now).1 = check_alerts s now :=
  ⟨rfl, rfl⟩
